import Mathlib

/-!
Verification development for the `nula-packages` dependency manager
(`src/lib/src/nula-packages.py`).

The program is a small CLI: `install <pkg>` performs one HTTP GET against a
fixed URL template and writes the response body into a per-user library
directory `<home>/.nula/lib`, optionally copying the artifact into a
project-local `./lib`; `list` prints the entries of the library directory.

The embedding below models the filesystem as a snapshot (an association
list from full path to byte content, plus a set of directory paths), the
HTTP client as an oracle value describing the one response the remote
serves, and the possible OS failure of the copy step as a second oracle.
Python exceptions are made explicit: `requests.RequestException` (and its
subclass `HTTPError` raised by `raise_for_status`) is caught by
`install_pkg`'s handler, while an `OSError` escaping `shutil.copy` is not
caught and terminates the interpreter with exit code 1.
-/

/-- Byte sequences: file contents and HTTP bodies are opaque byte lists. -/
abbrev Bytes := List Nat

/-- A filesystem snapshot: regular files as an association list from full
path to byte content, plus the paths that are directories. -/
structure FS where
  files : List (String × Bytes)
  dirs : List String
deriving DecidableEq, Repr

/-- Path join as the source uses it (`os.path.join` with a relative second
component on POSIX): concatenation with a single separator. -/
def pathJoin (a b : String) : String := a ++ "/" ++ b

/-- Module-level `nula_dir = os.path.join(home_dir, ".nula")` (line 13). -/
def nula_dir (home : String) : String := pathJoin home ".nula"

/-- Module-level `lib_dir = os.path.join(nula_dir, "lib")` (line 14). -/
def lib_dir (home : String) : String := pathJoin (nula_dir home) "lib"

/-- Whether path `p` is a regular file in the snapshot. -/
def FS.isFile (fs : FS) (p : String) : Bool := fs.files.any (fun e => e.1 == p)

/-- Whether path `p` is a directory in the snapshot. -/
def FS.isDir (fs : FS) (p : String) : Bool := fs.dirs.contains p

/-- Model of `os.path.exists`: true for files and directories alike. -/
def FS.pathExists (fs : FS) (p : String) : Bool := fs.isFile p || fs.isDir p

/-- The byte content of file `p`, when present. -/
def FS.readFile (fs : FS) (p : String) : Option Bytes :=
  (fs.files.find? (fun e => e.1 == p)).map Prod.snd

/-- Update the file table at path `p`: replace the first binding of `p`,
or append a fresh one when `p` is absent. -/
def writeEntry : List (String × Bytes) → String → Bytes → List (String × Bytes)
  | [], p, c => [(p, c)]
  | (q, d) :: rest, p, c =>
    if q == p then (p, c) :: rest else (q, d) :: writeEntry rest p c

/-- Model of `open(path, "wb")` followed by `f.write(content)`: create the
file or overwrite its previous content. -/
def FS.setFile (fs : FS) (p : String) (c : Bytes) : FS :=
  { fs with files := writeEntry fs.files p c }

/-- The entry name of path `p` when `p` lies directly inside directory `d`
(one more component, no deeper nesting). -/
def entryNameUnder (d p : String) : Option String :=
  let pre := d ++ "/"
  let rest := p.drop pre.length
  if p.take pre.length == pre && rest != "" && !(rest.data.contains '/') then
    some rest
  else
    none

/-- Model of `os.listdir d`: the names of files and directories directly
inside `d`, in the snapshot's enumeration order (files first, then
directories, each in table order). -/
def FS.listdir (fs : FS) (d : String) : List String :=
  fs.files.filterMap (fun e => entryNameUnder d e.1) ++
    fs.dirs.filterMap (fun q => entryNameUnder d q)

/-- A filesystem is well formed when no path occurs twice in its file
table. -/
def FS.wf (fs : FS) : Prop := (fs.files.map Prod.fst).Nodup

instance (fs : FS) : Decidable fs.wf :=
  inferInstanceAs (Decidable (fs.files.map Prod.fst).Nodup)

/-- Outcome of `requests.get url` (line 25): either a response object with
a status code and body bytes, or a raised `requests.RequestException`
(DNS failure, connection refused, ...) carrying a message. -/
inductive HttpResult where
  | response (status : Nat) (body : Bytes)
  | requestError (msg : String)
deriving DecidableEq, Repr

/-- Whether `response.raise_for_status()` (line 26) raises `HTTPError`:
it does exactly for client-error and server-error codes, 400 to 599. -/
def raisesForStatus (status : Nat) : Bool := 400 ≤ status && status < 600

/-- Modelled from the behaviour of the requests library: the message text
of the `HTTPError` raised by `raise_for_status`, which names the status
code and the URL. Its exact wording is irrelevant to the claims. -/
def http_error_message (status : Nat) (url : String) : String :=
  if status < 500 then toString status ++ " Client Error for url: " ++ url
  else toString status ++ " Server Error for url: " ++ url

/-- Oracle for the OS outcome of `shutil.copy` (line 36): success, or a
raised `OSError` (permission denied, disk full, ...). An `OSError` is not
a `requests.RequestException`, so line 38's handler does not catch it. -/
inductive CopyResult where
  | success
  | osError (msg : String)
deriving DecidableEq, Repr

/-- How a command's body ended: a normal return, or an exception that
escaped to the interpreter. -/
inductive ProcResult where
  | finished
  | uncaught (msg : String)
deriving DecidableEq, Repr

/-- The effect of one `install_pkg` call: the filesystem after it, the
lines printed to stdout, and how the call ended. -/
structure InstallEffect where
  fs : FS
  output : List String
  result : ProcResult
deriving DecidableEq, Repr

/-- Split a character list at every occurrence of `sep`, keeping empty
pieces, as `str.split(sep)` does for a one-character separator. -/
def splitChar (sep : Char) : List Char → List (List Char)
  | [] => [[]]
  | c :: cs =>
    let r := splitChar sep cs
    if c == sep then [] :: r
    else
      match r with
      | [] => [[c]]
      | h :: t => (c :: h) :: t

/-- The slash-separated components of a path string. -/
def slashComponents (p : String) : List String :=
  (splitChar '/' p.data).map String.mk

/-- The final path component; `shutil.copy` uses it to name the copy when
the destination is a directory. -/
def basename (p : String) : String := (slashComponents p).getLastD p

/-- Model of `shutil.copy src dst`: when `dst` is a directory the content
of `src` is written to `dst/<basename src>`, otherwise to `dst` itself,
overwriting either way. -/
def shutilCopy (fs : FS) (src dst : String) : FS :=
  match fs.readFile src with
  | none => fs
  | some content =>
    if fs.isDir dst then fs.setFile (pathJoin dst (basename src)) content
    else fs.setFile dst content

/-- The request URL of line 23: the package name substituted, without any
validation, into the fixed template. -/
def url_of (pkg : String) : String :=
  "https://hypothetical-nula-repo.com/libs/" ++ pkg ++ ".nula"

/-- The cache path of line 27: `os.path.join(lib_dir, f"{pkg}.nula")`. -/
def lib_path_of (home pkg : String) : String :=
  pathJoin (lib_dir home) (pkg ++ ".nula")

/-- Shallow embedding of `install_pkg` (lines 21 to 39). `home` and `cwd`
stand for the user's home directory and the working directory, `http` for
the outcome of the GET, `cp` for the OS outcome of the copy step. -/
def install_pkg (home cwd : String) (http : HttpResult) (cp : CopyResult)
    (pkg : String) (fs : FS) : InstallEffect :=
  let url := url_of pkg
  match http with
  | .requestError msg =>
    { fs := fs
      output := ["Error installing " ++ pkg ++ ": " ++ msg]
      result := .finished }
  | .response status body =>
    if raisesForStatus status then
      { fs := fs
        output := ["Error installing " ++ pkg ++ ": " ++
          http_error_message status url]
        result := .finished }
    else
      let lib_path := lib_path_of home pkg
      let fs1 := fs.setFile lib_path body
      let msg1 := "Installed " ++ pkg ++ " from " ++ url
      let project_lib := pathJoin cwd "lib"
      if fs1.pathExists project_lib then
        match cp with
        | .osError m => { fs := fs1, output := [msg1], result := .uncaught m }
        | .success =>
          { fs := shutilCopy fs1 lib_path project_lib
            output := [msg1, "Copied to project lib"]
            result := .finished }
      else
        { fs := fs1, output := [msg1], result := .finished }

/-- Shallow embedding of `list_pkgs` (lines 41 to 48): the lines printed. -/
def list_pkgs (home : String) (fs : FS) : List String :=
  let pkgs := fs.listdir (lib_dir home)
  if !pkgs.isEmpty then
    "Installed packages:" :: pkgs.map (fun p => "- " ++ p)
  else
    ["No packages installed."]

/-- The observable result of one process run: final filesystem, stdout
lines, and exit code. -/
structure RunResult where
  fs : FS
  output : List String
  exitCode : Nat
deriving DecidableEq, Repr

/-- Shallow embedding of the dispatcher (lines 50 to 64). `argv` includes
the program name, as `sys.argv` does. `sys.exit(1)` and an uncaught
exception both end the process with exit code 1; falling off the end of
the script exits 0. -/
def runMain (home cwd : String) (http : HttpResult) (cp : CopyResult)
    (argv : List String) (fs : FS) : RunResult :=
  match argv with
  | [] =>
    { fs := fs
      output := ["Usage: nula-packages [install <pkg> | list]"]
      exitCode := 1 }
  | [_] =>
    { fs := fs
      output := ["Usage: nula-packages [install <pkg> | list]"]
      exitCode := 1 }
  | _ :: command :: rest =>
    if command == "install" then
      match rest with
      | [] =>
        { fs := fs
          output := ["Usage: nula-packages install <pkg>"]
          exitCode := 1 }
      | pkg :: _ =>
        let eff := install_pkg home cwd http cp pkg fs
        match eff.result with
        | .finished => { fs := eff.fs, output := eff.output, exitCode := 0 }
        | .uncaught _ => { fs := eff.fs, output := eff.output, exitCode := 1 }
    else if command == "list" then
      { fs := fs, output := list_pkgs home fs, exitCode := 0 }
    else
      { fs := fs, output := ["Unknown command: " ++ command], exitCode := 1 }

/-- Resolve the components of a slash-separated path: drop empty and `.`
components and let `..` cancel the preceding component, as the kernel does
when such a path is opened. -/
def normalizeComponents : List String → List String → List String
  | acc, [] => acc.reverse
  | acc, c :: rest =>
    if c == ".." then
      match acc with
      | [] => normalizeComponents [] rest
      | _ :: t => normalizeComponents t rest
    else if c == "." || c == "" then normalizeComponents acc rest
    else normalizeComponents (c :: acc) rest

/-- The resolved component list of a path string. -/
def resolvePath (p : String) : List String :=
  normalizeComponents [] (slashComponents p)

/-- Whether the directory with resolved components `d` contains (at any
depth) the path with resolved components `p`. -/
def leadsUnder (d p : List String) : Bool := p.take d.length == d

/-- Number of bindings of path `p` in the file table. -/
def FS.fileCount (fs : FS) (p : String) : Nat :=
  (fs.files.filter (fun e => e.1 == p)).length

/-! ### Helper lemmas about the filesystem model -/

theorem find?_writeEntry_self (l : List (String × Bytes)) (p : String) (c : Bytes) :
    (writeEntry l p c).find? (fun e => e.1 == p) = some (p, c) := by
  induction l with
  | nil => simp [writeEntry]
  | cons hd tl ih =>
    obtain ⟨q, d⟩ := hd
    by_cases h : q = p
    · subst h
      simp [writeEntry]
    · simp only [writeEntry, beq_iff_eq, h, if_false]
      rw [List.find?_cons_of_neg, ih]
      simp [h]

theorem find?_writeEntry_ne (l : List (String × Bytes)) (p q : String) (c : Bytes)
    (h : q ≠ p) :
    (writeEntry l p c).find? (fun e => e.1 == q) = l.find? (fun e => e.1 == q) := by
  induction l with
  | nil =>
    simp [writeEntry, List.find?_cons, beq_eq_false_iff_ne.mpr (Ne.symm h)]
  | cons hd tl ih =>
    obtain ⟨a, d⟩ := hd
    by_cases ha : a = p
    · subst ha
      have hbq : (a == q) = false := beq_eq_false_iff_ne.mpr (Ne.symm h)
      simp [writeEntry, List.find?_cons, hbq]
    · have hbp : (a == p) = false := beq_eq_false_iff_ne.mpr ha
      cases hq : (a == q) with
      | true => simp [writeEntry, hbp, List.find?_cons, hq]
      | false => simp [writeEntry, hbp, List.find?_cons, hq, ih]

theorem readFile_setFile_self (fs : FS) (p : String) (c : Bytes) :
    (fs.setFile p c).readFile p = some c := by
  unfold FS.readFile FS.setFile
  rw [find?_writeEntry_self]
  rfl

theorem readFile_setFile_ne (fs : FS) (p q : String) (c : Bytes) (h : q ≠ p) :
    (fs.setFile p c).readFile q = fs.readFile q := by
  unfold FS.readFile FS.setFile
  rw [find?_writeEntry_ne _ _ _ _ h]

theorem readFile_setFile_same (fs : FS) (p q : String) (c : Bytes)
    (h : fs.readFile q = some c) : (fs.setFile p c).readFile q = some c := by
  by_cases hq : q = p
  · subst hq
    exact readFile_setFile_self fs q c
  · rw [readFile_setFile_ne fs p q c hq]
    exact h

theorem any_writeEntry_mono (l : List (String × Bytes)) (p q : String) (c : Bytes)
    (h : l.any (fun e => e.1 == q) = true) :
    (writeEntry l p c).any (fun e => e.1 == q) = true := by
  induction l with
  | nil => simp at h
  | cons hd tl ih =>
    obtain ⟨a, d⟩ := hd
    simp only [List.any_cons] at h
    by_cases ha : a = p
    · subst ha
      simp only [writeEntry, beq_self_eq_true, if_true, List.any_cons]
      rcases Bool.or_eq_true_iff.mp h with h1 | h2
      · simp only [beq_iff_eq] at h1
        subst h1
        simp
      · simp [h2]
    · simp only [writeEntry, beq_iff_eq, ha, if_false, List.any_cons]
      rcases Bool.or_eq_true_iff.mp h with h1 | h2
      · simp [h1]
      · simp [ih h2]

theorem any_writeEntry_ne (l : List (String × Bytes)) (p q : String) (c : Bytes)
    (h : q ≠ p) :
    (writeEntry l p c).any (fun e => e.1 == q) = l.any (fun e => e.1 == q) := by
  induction l with
  | nil => simp [writeEntry, Ne.symm h]
  | cons hd tl ih =>
    obtain ⟨a, d⟩ := hd
    by_cases ha : a = p
    · subst ha
      simp [writeEntry, Ne.symm h]
    · simp [writeEntry, ha, ih]

theorem isFile_setFile_of_isFile (fs : FS) (p q : String) (c : Bytes)
    (h : fs.isFile q = true) : (fs.setFile p c).isFile q = true :=
  any_writeEntry_mono fs.files p q c h

theorem isFile_setFile_ne (fs : FS) (p q : String) (c : Bytes) (h : q ≠ p) :
    (fs.setFile p c).isFile q = fs.isFile q :=
  any_writeEntry_ne fs.files p q c h

theorem isDir_setFile (fs : FS) (p q : String) (c : Bytes) :
    (fs.setFile p c).isDir q = fs.isDir q := rfl

theorem isFile_of_readFile (fs : FS) (p : String) (c : Bytes)
    (h : fs.readFile p = some c) : fs.isFile p = true := by
  unfold FS.readFile at h
  cases hf : fs.files.find? (fun e => e.1 == p) with
  | none => rw [hf] at h; simp at h
  | some e =>
    have hmem := List.mem_of_find?_eq_some hf
    have hpred := List.find?_some hf
    unfold FS.isFile
    rw [List.any_eq_true]
    exact ⟨e, hmem, hpred⟩

theorem map_fst_writeEntry (l : List (String × Bytes)) (p : String) (c : Bytes) :
    (writeEntry l p c).map Prod.fst =
      if p ∈ l.map Prod.fst then l.map Prod.fst else l.map Prod.fst ++ [p] := by
  induction l with
  | nil => simp [writeEntry]
  | cons hd tl ih =>
    obtain ⟨a, d⟩ := hd
    by_cases ha : a = p
    · subst ha
      simp [writeEntry]
    · have hbp : (a == p) = false := beq_eq_false_iff_ne.mpr ha
      by_cases hm : p ∈ tl.map Prod.fst
      · simp [writeEntry, hbp, ih, hm, Ne.symm ha]
      · simp [writeEntry, hbp, ih, hm, Ne.symm ha]

theorem wf_setFile (fs : FS) (p : String) (c : Bytes) (h : fs.wf) :
    (fs.setFile p c).wf := by
  unfold FS.wf FS.setFile at *
  simp only [map_fst_writeEntry]
  split
  · exact h
  · next hp => simp [List.nodup_append, h, hp]

theorem wf_shutilCopy (fs : FS) (src dst : String) (h : fs.wf) :
    (shutilCopy fs src dst).wf := by
  unfold shutilCopy
  cases fs.readFile src with
  | none => exact h
  | some content =>
    simp only
    split
    · exact wf_setFile fs _ content h
    · exact wf_setFile fs _ content h

theorem filter_key_eq_nil_of_not_mem (l : List (String × Bytes)) (p : String)
    (h : p ∉ l.map Prod.fst) : l.filter (fun e => e.1 == p) = [] := by
  rw [List.filter_eq_nil_iff]
  intro e he
  simp only [beq_iff_eq]
  intro hep
  apply h
  rw [← hep]
  exact List.mem_map_of_mem Prod.fst he

theorem count_one_of_nodup_keys (l : List (String × Bytes)) (p : String)
    (hw : (l.map Prod.fst).Nodup) (hf : l.any (fun e => e.1 == p) = true) :
    (l.filter (fun e => e.1 == p)).length = 1 := by
  induction l with
  | nil => simp at hf
  | cons hd tl ih =>
    obtain ⟨a, d⟩ := hd
    simp only [List.map_cons, List.nodup_cons] at hw
    by_cases ha : a = p
    · subst ha
      rw [List.filter_cons_of_pos (by simp)]
      rw [filter_key_eq_nil_of_not_mem tl a hw.1]
      rfl
    · have hbp : (a == p) = false := beq_eq_false_iff_ne.mpr ha
      rw [List.filter_cons_of_neg (by simp [hbp])]
      apply ih hw.2
      simp only [List.any_cons, hbp, Bool.false_or] at hf
      exact hf

theorem fileCount_one_of_wf (fs : FS) (p : String) (hw : fs.wf)
    (hf : fs.isFile p = true) : fs.fileCount p = 1 :=
  count_one_of_nodup_keys fs.files p hw hf

/-! ### String disequality lemmas -/

theorem data_getLast?_append (a b : String) (h : b.data ≠ []) :
    (a ++ b).data.getLast? = b.data.getLast? := by
  rw [String.data_append]
  exact List.getLast?_append_of_ne_nil _ h

theorem project_lib_ne_lib_path (cwd home pkg : String) :
    pathJoin cwd "lib" ≠ lib_path_of home pkg := by
  intro h
  have hl : (pathJoin cwd "lib").data.getLast? = some 'b' := by
    unfold pathJoin
    rw [data_getLast?_append _ _ (by decide)]
    rfl
  have hr : (lib_path_of home pkg).data.getLast? = some 'a' := by
    unfold lib_path_of pathJoin
    rw [data_getLast?_append _ _ (by rw [String.data_append]; simp)]
    rw [data_getLast?_append _ _ (by decide)]
    rfl
  rw [h, hr] at hl
  exact absurd hl (by decide)

theorem dash_append_inj {a b : String} (h : "- " ++ a = "- " ++ b) : a = b := by
  have hd := congrArg String.data h
  rw [String.data_append, String.data_append] at hd
  exact String.ext (List.append_cancel_left hd)

theorem dash_append_ne_noPkgs (n : String) :
    ("- " ++ n) ≠ "No packages installed." := by
  intro h
  have h1 : ("- " ++ n).data = ("No packages installed." : String).data := by rw [h]
  rw [String.data_append] at h1
  have h4 : (some '-' : Option Char) = some 'N' := congrArg List.head? h1
  exact absurd h4 (by decide)

theorem dash_append_ne_header (n : String) :
    ("- " ++ n) ≠ "Installed packages:" := by
  intro h
  have h1 : ("- " ++ n).data = ("Installed packages:" : String).data := by rw [h]
  rw [String.data_append] at h1
  have h4 : (some '-' : Option Char) = some 'I' := congrArg List.head? h1
  exact absurd h4 (by decide)

/-! ### Behaviour lemmas about `install_pkg` -/

theorem shutilCopy_readFile_src (fs : FS) (src dst : String) (c : Bytes)
    (h : fs.readFile src = some c) :
    (shutilCopy fs src dst).readFile src = some c := by
  unfold shutilCopy
  split
  · exact h
  · next content heq =>
    rw [h] at heq
    injection heq with hc
    subst hc
    split
    · exact readFile_setFile_same fs _ src c h
    · exact readFile_setFile_same fs _ src c h

theorem install_response_ok_readFile (home cwd pkg : String) (status : Nat)
    (body : Bytes) (cp : CopyResult) (fs : FS)
    (h : raisesForStatus status = false) :
    (install_pkg home cwd (.response status body) cp pkg fs).fs.readFile
      (lib_path_of home pkg) = some body := by
  unfold install_pkg
  simp only [h, Bool.false_eq_true, if_false]
  split
  · cases cp with
    | success =>
      exact shutilCopy_readFile_src _ _ _ body (readFile_setFile_self fs _ body)
    | osError m => exact readFile_setFile_self fs _ body
  · exact readFile_setFile_self fs _ body

theorem install_response_ok_output (home cwd pkg : String) (status : Nat)
    (body : Bytes) (cp : CopyResult) (fs : FS)
    (h : raisesForStatus status = false) :
    ("Installed " ++ pkg ++ " from " ++ url_of pkg) ∈
      (install_pkg home cwd (.response status body) cp pkg fs).output := by
  unfold install_pkg
  simp only [h, Bool.false_eq_true, if_false]
  split
  · cases cp <;> simp
  · simp

theorem install_wf_preserved (home cwd : String) (http : HttpResult)
    (cp : CopyResult) (pkg : String) (fs : FS) (h : fs.wf) :
    (install_pkg home cwd http cp pkg fs).fs.wf := by
  unfold install_pkg
  cases http with
  | requestError m => exact h
  | response status body =>
    by_cases hr : raisesForStatus status = true
    · simp only [hr, if_true]
      exact h
    · simp only [Bool.not_eq_true] at hr
      simp only [hr, Bool.false_eq_true, if_false]
      split
      · cases cp with
        | success => exact wf_shutilCopy _ _ _ (wf_setFile fs _ body h)
        | osError m => exact wf_setFile fs _ body h
      · exact wf_setFile fs _ body h

theorem install_response_ok_isFile (home cwd pkg : String) (status : Nat)
    (body : Bytes) (cp : CopyResult) (fs : FS)
    (h : raisesForStatus status = false) :
    (install_pkg home cwd (.response status body) cp pkg fs).fs.isFile
      (lib_path_of home pkg) = true :=
  isFile_of_readFile _ _ body
    (install_response_ok_readFile home cwd pkg status body cp fs h)

theorem raisesForStatus_false_of_2xx (status : Nat) (h2 : 200 ≤ status)
    (h3 : status < 300) : raisesForStatus status = false := by
  unfold raisesForStatus
  simp only [Bool.and_eq_false_iff]
  left
  simp only [decide_eq_false_iff_not]
  omega

theorem shutilCopy_to_file (fs : FS) (src dst : String) (c : Bytes)
    (hsrc : fs.readFile src = some c) (hd : fs.isDir dst = false) :
    (shutilCopy fs src dst).readFile dst = some c := by
  unfold shutilCopy
  split
  · next hnone => rw [hsrc] at hnone; cases hnone
  · next content heq =>
    rw [hsrc] at heq
    injection heq with hc
    subst hc
    simp only [hd, Bool.false_eq_true, if_false]
    exact readFile_setFile_self fs dst c

theorem shutilCopy_to_dir (fs : FS) (src dst : String) (c : Bytes)
    (hsrc : fs.readFile src = some c) (hd : fs.isDir dst = true) :
    (shutilCopy fs src dst).readFile (pathJoin dst (basename src)) = some c := by
  unfold shutilCopy
  split
  · next hnone => rw [hsrc] at hnone; cases hnone
  · next content heq =>
    rw [hsrc] at heq
    injection heq with hc
    subst hc
    simp only [hd, if_true]
    exact readFile_setFile_self fs _ c

theorem list_pkgs_mem_iff (home : String) (fs : FS) (n : String) :
    ("- " ++ n) ∈ list_pkgs home fs ↔ n ∈ fs.listdir (lib_dir home) := by
  unfold list_pkgs
  by_cases he : (fs.listdir (lib_dir home)).isEmpty
  · simp only [he, Bool.not_true, Bool.false_eq_true, if_false]
    constructor
    · intro hmem
      simp only [List.mem_singleton] at hmem
      exact absurd hmem (dash_append_ne_noPkgs n)
    · intro hmem
      rw [List.isEmpty_iff] at he
      rw [he] at hmem
      simp at hmem
  · simp only [Bool.not_eq_true] at he
    simp only [he, Bool.not_false, if_true]
    constructor
    · intro hmem
      rcases List.mem_cons.mp hmem with h1 | h2
      · exact absurd h1 (dash_append_ne_header n)
      · rcases List.mem_map.mp h2 with ⟨a, ha, hae⟩
        rw [← dash_append_inj hae]
        exact ha
    · intro hmem
      exact List.mem_cons_of_mem _ (List.mem_map_of_mem _ hmem)

theorem runMain_install_eq (home cwd : String) (http : HttpResult)
    (cp : CopyResult) (prog pkg : String) (rest : List String) (fs : FS) :
    runMain home cwd http cp (prog :: "install" :: pkg :: rest) fs =
      (match (install_pkg home cwd http cp pkg fs).result with
       | .finished =>
         { fs := (install_pkg home cwd http cp pkg fs).fs
           output := (install_pkg home cwd http cp pkg fs).output
           exitCode := 0 }
       | .uncaught _ =>
         { fs := (install_pkg home cwd http cp pkg fs).fs
           output := (install_pkg home cwd http cp pkg fs).output
           exitCode := 1 }) := rfl

/-! ### Claim theorems -/

/-- C1: for every package name, after an `install` whose HTTP GET returns
a 2xx status, the library directory holds `<pkg>.nula` with exactly the
response body, and a success message containing the resolved URL is
printed. -/
theorem install_2xx_caches_body_and_reports (home cwd pkg : String)
    (status : Nat) (body : Bytes) (cp : CopyResult) (fs : FS)
    (h2 : 200 ≤ status) (h3 : status < 300) :
    (install_pkg home cwd (.response status body) cp pkg fs).fs.readFile
        (lib_path_of home pkg) = some body ∧
    ("Installed " ++ pkg ++ " from " ++ url_of pkg) ∈
        (install_pkg home cwd (.response status body) cp pkg fs).output := by
  have h := raisesForStatus_false_of_2xx status h2 h3
  exact ⟨install_response_ok_readFile home cwd pkg status body cp fs h,
    install_response_ok_output home cwd pkg status body cp fs h⟩

/-- Witness for C1 at a concrete input. -/
theorem install_2xx_caches_body_and_reports_witness :
    (install_pkg "/h" "/c" (.response 200 [1, 2]) .success "demo"
        ⟨[], []⟩).fs.readFile (lib_path_of "/h" "demo") = some [1, 2] ∧
    ("Installed " ++ "demo" ++ " from " ++ url_of "demo") ∈
        (install_pkg "/h" "/c" (.response 200 [1, 2]) .success "demo"
          ⟨[], []⟩).output :=
  install_2xx_caches_body_and_reports "/h" "/c" "demo" 200 [1, 2] .success
    ⟨[], []⟩ (by decide) (by decide)

/-- C2 counterexample: 304 is not a 2xx status, yet `install` writes the
file and prints no error line, because `raise_for_status` raises only for
statuses 400 to 599. -/
theorem install_non2xx_claim_false_at_304 :
    ¬ (200 ≤ 304 ∧ 304 < 300) ∧
    (install_pkg "/h" "/c" (.response 304 [7]) .success "foo"
        ⟨[], []⟩).fs.readFile (lib_path_of "/h" "foo") = some [7] ∧
    (install_pkg "/h" "/c" (.response 304 [7]) .success "foo"
        ⟨[], []⟩).output =
      ["Installed foo from https://hypothetical-nula-repo.com/libs/foo.nula"] := by
  decide

/-- C2 (amended): for statuses 400 to 599 the install aborts: the
filesystem is unchanged (no file written), the single printed line is an
error naming the package, and the call returns normally. Statuses outside
both 2xx and 400..599 (such as 304) are treated as success instead. -/
theorem install_4xx5xx_leaves_fs_and_reports (home cwd pkg : String)
    (status : Nat) (body : Bytes) (cp : CopyResult) (fs : FS)
    (h4 : 400 ≤ status) (h6 : status < 600) :
    (install_pkg home cwd (.response status body) cp pkg fs).fs = fs ∧
    (install_pkg home cwd (.response status body) cp pkg fs).output =
      ["Error installing " ++ pkg ++ ": " ++
        http_error_message status (url_of pkg)] ∧
    (install_pkg home cwd (.response status body) cp pkg fs).result =
      .finished := by
  have h : raisesForStatus status = true := by
    unfold raisesForStatus
    simp only [Bool.and_eq_true, decide_eq_true_eq]
    omega
  unfold install_pkg
  simp [h]

/-- Witness for the amended C2 at a concrete input. -/
theorem install_4xx5xx_leaves_fs_and_reports_witness :
    (install_pkg "/h" "/c" (.response 404 [7]) .success "foo"
        ⟨[], []⟩).fs = ⟨[], []⟩ ∧
    (install_pkg "/h" "/c" (.response 404 [7]) .success "foo"
        ⟨[], []⟩).output =
      ["Error installing " ++ "foo" ++ ": " ++
        http_error_message 404 (url_of "foo")] ∧
    (install_pkg "/h" "/c" (.response 404 [7]) .success "foo"
        ⟨[], []⟩).result = .finished :=
  install_4xx5xx_leaves_fs_and_reports "/h" "/c" "foo" 404 [7] .success
    ⟨[], []⟩ (by decide) (by decide)

/-- C3 counterexample: a run whose project copy raises an OSError exits
with code 1, while the identical run with a succeeding copy exits 0, and
the failing run prints no line about the copy failure. -/
theorem copy_failure_claim_false :
    (runMain "/h" "/c" (.response 200 [1]) (.osError "Permission denied")
        ["prog", "install", "a"] ⟨[], ["/c/lib"]⟩).exitCode = 1 ∧
    (runMain "/h" "/c" (.response 200 [1]) .success
        ["prog", "install", "a"] ⟨[], ["/c/lib"]⟩).exitCode = 0 ∧
    (runMain "/h" "/c" (.response 200 [1]) (.osError "Permission denied")
        ["prog", "install", "a"] ⟨[], ["/c/lib"]⟩).output =
      ["Installed a from https://hypothetical-nula-repo.com/libs/a.nula"] := by
  decide

/-- C3 (amended): a failing project copy is an uncaught OSError: the
exception escapes `install_pkg` (the except clause catches only request
exceptions), the only line printed is the install success line, and the
process exits with code 1, unlike the exit 0 of a successful run. -/
theorem copy_failure_uncaught_exits_nonzero (home cwd pkg m : String)
    (status : Nat) (body : Bytes) (fs : FS)
    (h2 : 200 ≤ status) (h3 : status < 300)
    (hp : (fs.setFile (lib_path_of home pkg) body).pathExists
        (pathJoin cwd "lib") = true) :
    (install_pkg home cwd (.response status body) (.osError m) pkg fs).result =
      .uncaught m ∧
    (install_pkg home cwd (.response status body) (.osError m) pkg fs).output =
      ["Installed " ++ pkg ++ " from " ++ url_of pkg] ∧
    (∀ prog : String,
      (runMain home cwd (.response status body) (.osError m)
        [prog, "install", pkg] fs).exitCode = 1) := by
  have h := raisesForStatus_false_of_2xx status h2 h3
  have heff : install_pkg home cwd (.response status body) (.osError m) pkg fs =
      { fs := fs.setFile (lib_path_of home pkg) body
        output := ["Installed " ++ pkg ++ " from " ++ url_of pkg]
        result := .uncaught m } := by
    unfold install_pkg
    simp [h, hp]
  refine ⟨by rw [heff], by rw [heff], ?_⟩
  intro prog
  rw [runMain_install_eq, heff]

/-- Witness for the amended C3 at a concrete input. -/
theorem copy_failure_uncaught_exits_nonzero_witness :
    (install_pkg "/h" "/c" (.response 200 [1]) (.osError "denied") "a"
        ⟨[], ["/c/lib"]⟩).result = .uncaught "denied" ∧
    (install_pkg "/h" "/c" (.response 200 [1]) (.osError "denied") "a"
        ⟨[], ["/c/lib"]⟩).output =
      ["Installed " ++ "a" ++ " from " ++ url_of "a"] ∧
    (runMain "/h" "/c" (.response 200 [1]) (.osError "denied")
      ["nula-packages", "install", "a"] ⟨[], ["/c/lib"]⟩).exitCode = 1 :=
  ⟨(copy_failure_uncaught_exits_nonzero "/h" "/c" "a" "denied" 200 [1]
      ⟨[], ["/c/lib"]⟩ (by decide) (by decide) (by decide)).1,
    (copy_failure_uncaught_exits_nonzero "/h" "/c" "a" "denied" 200 [1]
      ⟨[], ["/c/lib"]⟩ (by decide) (by decide) (by decide)).2.1,
    (copy_failure_uncaught_exits_nonzero "/h" "/c" "a" "denied" 200 [1]
      ⟨[], ["/c/lib"]⟩ (by decide) (by decide) (by decide)).2.2 "nula-packages"⟩

/-- C4: `list` prints exactly the entries of the library directory: with
at least one entry, a header followed by one line per entry in enumeration
order; with none, a single no-packages message; and a line for a name
appears if and only if that name is an entry. -/
theorem list_prints_exactly_entries (home : String) (fs : FS) :
    (fs.listdir (lib_dir home) = [] →
      list_pkgs home fs = ["No packages installed."]) ∧
    (fs.listdir (lib_dir home) ≠ [] →
      list_pkgs home fs =
        "Installed packages:" ::
          (fs.listdir (lib_dir home)).map (fun n => "- " ++ n)) ∧
    (∀ n : String, ("- " ++ n) ∈ list_pkgs home fs ↔
      n ∈ fs.listdir (lib_dir home)) := by
  refine ⟨?_, ?_, fun n => list_pkgs_mem_iff home fs n⟩
  · intro he
    unfold list_pkgs
    simp [he]
  · intro he
    unfold list_pkgs
    simp only [List.isEmpty_iff]
    simp [he]

/-- Witness for C4 at a concrete input with one entry. -/
theorem list_prints_exactly_entries_witness :
    list_pkgs "/h" ⟨[(pathJoin (lib_dir "/h") "a.nula", [1])], []⟩ =
      "Installed packages:" ::
        ((⟨[(pathJoin (lib_dir "/h") "a.nula", [1])], []⟩ : FS).listdir
            (lib_dir "/h")).map (fun n => "- " ++ n) :=
  (list_prints_exactly_entries "/h"
    ⟨[(pathJoin (lib_dir "/h") "a.nula", [1])], []⟩).2.1 (by decide)

/-- C5 counterexample: a GET answered with status 300 is a non-2xx
response, yet the run prints the success line and no error message naming
the package, because `raise_for_status` raises only for 400 to 599. -/
theorem http_failure_claim_false_at_300 :
    ¬ (200 ≤ 300 ∧ 300 < 300) ∧
    (runMain "/h" "/c" (.response 300 [2]) .success ["prog", "install", "bar"]
        ⟨[], []⟩).output =
      ["Installed bar from https://hypothetical-nula-repo.com/libs/bar.nula"] ∧
    (runMain "/h" "/c" (.response 300 [2]) .success ["prog", "install", "bar"]
        ⟨[], []⟩).exitCode = 0 := by
  decide

/-- C5 (amended): a raised request exception, or a response with status
400 to 599, is recovered locally: the run prints one error line naming the
package and the underlying cause, leaves the filesystem unchanged, and
exits 0; other non-2xx statuses (such as 300) are treated as success. -/
theorem install_failure_recovered_exit_zero (home cwd pkg m prog : String)
    (status : Nat) (body : Bytes) (cp : CopyResult) (fs : FS) :
    ((runMain home cwd (.requestError m) cp [prog, "install", pkg] fs).output =
        ["Error installing " ++ pkg ++ ": " ++ m] ∧
      (runMain home cwd (.requestError m) cp
          [prog, "install", pkg] fs).exitCode = 0 ∧
      (runMain home cwd (.requestError m) cp [prog, "install", pkg] fs).fs =
        fs) ∧
    (400 ≤ status → status < 600 →
      (runMain home cwd (.response status body) cp
          [prog, "install", pkg] fs).output =
        ["Error installing " ++ pkg ++ ": " ++
          http_error_message status (url_of pkg)] ∧
      (runMain home cwd (.response status body) cp
          [prog, "install", pkg] fs).exitCode = 0 ∧
      (runMain home cwd (.response status body) cp
          [prog, "install", pkg] fs).fs = fs) := by
  constructor
  · rw [runMain_install_eq]
    exact ⟨rfl, rfl, rfl⟩
  · intro h4 h6
    have hef := install_4xx5xx_leaves_fs_and_reports home cwd pkg status body
      cp fs h4 h6
    rw [runMain_install_eq, hef.2.2]
    exact ⟨hef.2.1, rfl, hef.1⟩

/-- Witness for the amended C5 at a concrete input (status 404). -/
theorem install_failure_recovered_exit_zero_witness :
    (runMain "/h" "/c" (.response 404 [9]) .success
        ["nula-packages", "install", "p"] ⟨[], []⟩).output =
      ["Error installing " ++ "p" ++ ": " ++
        http_error_message 404 (url_of "p")] ∧
    (runMain "/h" "/c" (.response 404 [9]) .success
        ["nula-packages", "install", "p"] ⟨[], []⟩).exitCode = 0 ∧
    (runMain "/h" "/c" (.response 404 [9]) .success
        ["nula-packages", "install", "p"] ⟨[], []⟩).fs = ⟨[], []⟩ :=
  (install_failure_recovered_exit_zero "/h" "/c" "p" "boom" "nula-packages"
    404 [9] .success ⟨[], []⟩).2 (by decide) (by decide)

/-- C6: the dispatcher validates before routing: a bare program name
prints usage and exits 1; `install` without a package prints the install
usage and exits 1; any first argument other than `install` or `list`
prints an unknown-command line naming it and exits 1. -/
theorem dispatcher_validates_arguments (home cwd : String) (http : HttpResult)
    (cp : CopyResult) (prog : String) (fs : FS) :
    ((runMain home cwd http cp [prog] fs).exitCode = 1 ∧
      (runMain home cwd http cp [prog] fs).output =
        ["Usage: nula-packages [install <pkg> | list]"]) ∧
    ((runMain home cwd http cp [prog, "install"] fs).exitCode = 1 ∧
      (runMain home cwd http cp [prog, "install"] fs).output =
        ["Usage: nula-packages install <pkg>"]) ∧
    (∀ (c : String) (rest : List String), c ≠ "install" → c ≠ "list" →
      (runMain home cwd http cp (prog :: c :: rest) fs).exitCode = 1 ∧
      (runMain home cwd http cp (prog :: c :: rest) fs).output =
        ["Unknown command: " ++ c]) := by
  refine ⟨⟨rfl, rfl⟩, ⟨rfl, rfl⟩, ?_⟩
  intro c rest hc hl
  have h1 : (c == "install") = false := beq_eq_false_iff_ne.mpr hc
  have h2 : (c == "list") = false := beq_eq_false_iff_ne.mpr hl
  unfold runMain
  simp [h1, h2]

/-- Witness for C6 at a concrete unknown command. -/
theorem dispatcher_validates_arguments_witness :
    (runMain "/h" "/c" (.response 200 []) .success
        ["nula-packages", "remove", "x"] ⟨[], []⟩).exitCode = 1 ∧
    (runMain "/h" "/c" (.response 200 []) .success
        ["nula-packages", "remove", "x"] ⟨[], []⟩).output =
      ["Unknown command: " ++ "remove"] :=
  (dispatcher_validates_arguments "/h" "/c" (.response 200 []) .success
    "nula-packages" ⟨[], []⟩).2.2 "remove" ["x"] (by decide) (by decide)

/-- C7: after a successful fetch, when `./lib` is a directory the artifact
is copied into it under its own file name and a copy message is printed;
when nothing named `./lib` exists, the filesystem change is exactly the
cache write, the only line is the install message, and the call returns
normally. -/
theorem project_sync_copies_iff_present (home cwd pkg : String) (status : Nat)
    (body : Bytes) (fs : FS) (h2 : 200 ≤ status) (h3 : status < 300) :
    (fs.isDir (pathJoin cwd "lib") = true →
      (install_pkg home cwd (.response status body) .success pkg fs).fs.readFile
          (pathJoin (pathJoin cwd "lib") (basename (lib_path_of home pkg))) =
        some body ∧
      (install_pkg home cwd (.response status body) .success pkg fs).output =
        ["Installed " ++ pkg ++ " from " ++ url_of pkg,
          "Copied to project lib"]) ∧
    (fs.pathExists (pathJoin cwd "lib") = false →
      (install_pkg home cwd (.response status body) .success pkg fs).fs =
        fs.setFile (lib_path_of home pkg) body ∧
      (install_pkg home cwd (.response status body) .success pkg fs).output =
        ["Installed " ++ pkg ++ " from " ++ url_of pkg] ∧
      (install_pkg home cwd (.response status body) .success pkg fs).result =
        .finished) := by
  have h := raisesForStatus_false_of_2xx status h2 h3
  constructor
  · intro hd
    have hd1 : (fs.setFile (lib_path_of home pkg) body).isDir
        (pathJoin cwd "lib") = true := hd
    have hex : (fs.setFile (lib_path_of home pkg) body).pathExists
        (pathJoin cwd "lib") = true := by
      unfold FS.pathExists
      rw [hd1, Bool.or_true]
    have hsrc := readFile_setFile_self fs (lib_path_of home pkg) body
    constructor
    · unfold install_pkg
      simp only [h, Bool.false_eq_true, if_false, hex, if_true]
      exact shutilCopy_to_dir _ _ _ body hsrc hd1
    · unfold install_pkg
      simp only [h, Bool.false_eq_true, if_false, hex, if_true]
  · intro hne
    have hnf : fs.isFile (pathJoin cwd "lib") = false := by
      unfold FS.pathExists at hne
      exact (Bool.or_eq_false_iff.mp hne).1
    have hnd : fs.isDir (pathJoin cwd "lib") = false := by
      unfold FS.pathExists at hne
      exact (Bool.or_eq_false_iff.mp hne).2
    have hne1 : (fs.setFile (lib_path_of home pkg) body).pathExists
        (pathJoin cwd "lib") = false := by
      unfold FS.pathExists
      rw [isFile_setFile_ne fs _ _ body
        (project_lib_ne_lib_path cwd home pkg), hnf]
      rw [isDir_setFile, hnd]
      rfl
    unfold install_pkg
    simp [h, hne1]

/-- Witness for C7 at a concrete input with an existing `./lib`
directory. -/
theorem project_sync_copies_iff_present_witness :
    (install_pkg "/h" "/c" (.response 200 [3]) .success "a"
        ⟨[], ["/c/lib"]⟩).fs.readFile
        (pathJoin (pathJoin "/c" "lib") (basename (lib_path_of "/h" "a"))) =
      some [3] ∧
    (install_pkg "/h" "/c" (.response 200 [3]) .success "a"
        ⟨[], ["/c/lib"]⟩).output =
      ["Installed " ++ "a" ++ " from " ++ url_of "a",
        "Copied to project lib"] :=
  (project_sync_copies_iff_present "/h" "/c" "a" 200 [3] ⟨[], ["/c/lib"]⟩
    (by decide) (by decide)).1 (by decide)

/-- C8: a package name maps to at most one cached artifact: after two
successful installs of the same name, the cache path holds exactly one
file table entry, and its content is the second response body. -/
theorem reinstall_overwrites_single_artifact (home cwd pkg : String)
    (s1 s2 : Nat) (b1 b2 : Bytes) (cp1 cp2 : CopyResult) (fs : FS)
    (hwf : fs.wf)
    (h1a : 200 ≤ s1) (h1b : s1 < 300) (h2a : 200 ≤ s2) (h2b : s2 < 300) :
    (install_pkg home cwd (.response s2 b2) cp2 pkg
        (install_pkg home cwd (.response s1 b1) cp1 pkg fs).fs).fs.readFile
      (lib_path_of home pkg) = some b2 ∧
    (install_pkg home cwd (.response s2 b2) cp2 pkg
        (install_pkg home cwd (.response s1 b1) cp1 pkg fs).fs).fs.fileCount
      (lib_path_of home pkg) = 1 := by
  have hr2 := raisesForStatus_false_of_2xx s2 h2a h2b
  have hr1 := raisesForStatus_false_of_2xx s1 h1a h1b
  have hwfA := install_wf_preserved home cwd (.response s1 b1) cp1 pkg fs hwf
  have hwfB := install_wf_preserved home cwd (.response s2 b2) cp2 pkg _ hwfA
  have hread := install_response_ok_readFile home cwd pkg s2 b2 cp2
    (install_pkg home cwd (.response s1 b1) cp1 pkg fs).fs hr2
  exact ⟨hread, fileCount_one_of_wf _ _ hwfB (isFile_of_readFile _ _ _ hread)⟩

/-- Witness for C8 at a concrete input: two installs of the same name. -/
theorem reinstall_overwrites_single_artifact_witness :
    (install_pkg "/h" "/c" (.response 200 [5, 6]) .success "a"
        (install_pkg "/h" "/c" (.response 200 [4]) .success "a"
          ⟨[], []⟩).fs).fs.readFile (lib_path_of "/h" "a") = some [5, 6] ∧
    (install_pkg "/h" "/c" (.response 200 [5, 6]) .success "a"
        (install_pkg "/h" "/c" (.response 200 [4]) .success "a"
          ⟨[], []⟩).fs).fs.fileCount (lib_path_of "/h" "a") = 1 :=
  reinstall_overwrites_single_artifact "/h" "/c" "a" 200 200 [4] [5, 6]
    .success .success ⟨[], []⟩ (by decide) (by decide) (by decide)
    (by decide) (by decide)

/-- C9: the request URL is the package name substituted, without any
validation, into the fixed template, the cache path is the name joined
unvalidated under the library directory, and the concrete name `../evil`
yields a written path that resolves outside the library directory. -/
theorem unsanitized_name_escapes_library (pkg : String) :
    url_of pkg = "https://hypothetical-nula-repo.com/libs/" ++ pkg ++ ".nula" ∧
    (∀ home : String,
      lib_path_of home pkg = lib_dir home ++ "/" ++ (pkg ++ ".nula")) ∧
    leadsUnder (resolvePath (lib_dir "/home/u"))
      (resolvePath (lib_path_of "/home/u" "../evil")) = false ∧
    leadsUnder (resolvePath (lib_dir "/home/u"))
      (resolvePath (lib_path_of "/home/u" "good")) = true :=
  ⟨rfl, fun _ => rfl, by decide, by decide⟩

/-- C10: the project-sync check is bare existence, not directory-ness:
when `<cwd>/lib` is a regular file, a successful install overwrites that
file's bytes with the artifact and still prints the copy message. -/
theorem project_sync_overwrites_lib_file (home cwd pkg : String)
    (status : Nat) (body : Bytes) (fs : FS)
    (h2 : 200 ≤ status) (h3 : status < 300)
    (hf : fs.isFile (pathJoin cwd "lib") = true)
    (hd : fs.isDir (pathJoin cwd "lib") = false) :
    (install_pkg home cwd (.response status body) .success pkg fs).fs.readFile
        (pathJoin cwd "lib") = some body ∧
    "Copied to project lib" ∈
      (install_pkg home cwd (.response status body) .success pkg fs).output := by
  have h := raisesForStatus_false_of_2xx status h2 h3
  have hf1 : (fs.setFile (lib_path_of home pkg) body).isFile
      (pathJoin cwd "lib") = true :=
    isFile_setFile_of_isFile fs _ _ body hf
  have hex : (fs.setFile (lib_path_of home pkg) body).pathExists
      (pathJoin cwd "lib") = true := by
    unfold FS.pathExists
    rw [hf1, Bool.true_or]
  have hd1 : (fs.setFile (lib_path_of home pkg) body).isDir
      (pathJoin cwd "lib") = false := hd
  have hsrc := readFile_setFile_self fs (lib_path_of home pkg) body
  constructor
  · unfold install_pkg
    simp only [h, Bool.false_eq_true, if_false, hex, if_true]
    exact shutilCopy_to_file _ _ _ body hsrc hd1
  · unfold install_pkg
    simp only [h, Bool.false_eq_true, if_false, hex, if_true]
    simp

/-- Witness for C10 at a concrete input where `/c/lib` is a regular
file. -/
theorem project_sync_overwrites_lib_file_witness :
    (install_pkg "/h" "/c" (.response 200 [3]) .success "a"
        ⟨[("/c/lib", [9])], []⟩).fs.readFile (pathJoin "/c" "lib") =
      some [3] ∧
    "Copied to project lib" ∈
      (install_pkg "/h" "/c" (.response 200 [3]) .success "a"
        ⟨[("/c/lib", [9])], []⟩).output :=
  project_sync_overwrites_lib_file "/h" "/c" "a" 200 [3]
    ⟨[("/c/lib", [9])], []⟩ (by decide) (by decide) (by decide) (by decide)
